import Mathlib

/-!
Shallow embedding of the Falx MAVLink monitor daemon core
(src/daemon/mavlink_daemon.py), covering the telemetry normalizer
(`process_telemetry`), the failsafe latch (`check_failsafe`), the broker
publish path (`publish_telemetry`) and the initial daemon state
(`MAVLinkDaemon.__init__`).  Python floats are modelled as rationals
(every voltage literal appearing in the code and the claims is exactly
representable, and all threshold comparisons agree with the binary
floating-point ones); wall-clock timestamps are modelled as an abstract
tick passed to each step; side effects (logging, MQTT publishes, the
WebSocket broadcast) are reified as an ordered event trace returned by
each step.
-/

attribute [local semireducible] Rat.add Rat.mul Rat.inv Rat.sub Rat.ofScientific

namespace Falx

/-- Configuration constant of the daemon (module level in the source). -/
def MQTT_TOPIC_TELEMETRY : String := "mavlink/telemetry"

/-- Configuration constant of the daemon (module level in the source). -/
def MQTT_TOPIC_ALERT : String := "mavlink/alert"

/-- The 6S pack critical threshold (module level in the source). -/
def BATTERY_CRITICAL_VOLTAGE : ℚ := 21.0

/-- A JSON-ish value that can sit in a field of an inbound record.
`num` covers JSON numbers, `str` strings, `bool` booleans, `null` the
JSON null.  (Nested objects and arrays also fail the coercion in
Python; `null` stands in for every non-coercible non-string value.) -/
inductive JVal where
  | num (q : ℚ)
  | str (s : String)
  | bool (b : Bool)
  | null
deriving DecidableEq, Repr

/-- Digits to a natural number, most significant first. -/
def digitsVal (ds : List Char) : Nat :=
  ds.foldl (fun a c => a * 10 + (c.toNat - 48)) 0

/-- Unsigned decimal literal: digits with an optional single decimal
point, at least one digit overall. -/
def parseUnsigned (cs : List Char) : Option ℚ :=
  let intPart := cs.takeWhile Char.isDigit
  let rest := cs.dropWhile Char.isDigit
  match rest with
  | [] => if intPart.isEmpty then none else some (digitsVal intPart : ℚ)
  | '.' :: frac =>
      if frac.all Char.isDigit && !(intPart.isEmpty && frac.isEmpty) then
        some ((digitsVal intPart : ℚ) + (digitsVal frac : ℚ) / (10 ^ frac.length))
      else none
  | _ => none

/-- Model of the string branch of the Python builtin `float(str)`: an
optional sign followed by an unsigned decimal literal.  (Python
additionally accepts exponents, inf/nan and surrounding whitespace; no
claim depends on such inputs.) -/
def parseFloat (s : String) : Option ℚ :=
  match s.toList with
  | '+' :: cs => parseUnsigned cs
  | '-' :: cs => (parseUnsigned cs).map Neg.neg
  | cs => parseUnsigned cs

/-- Model of the Python builtin `float(x)` as used at
mavlink_daemon.py lines 119-121: numbers pass through, booleans coerce
to 1.0 and 0.0, strings go through decimal parsing (`ValueError` on
failure, modelled as `none`), `null` and other non-coercible values
raise (`TypeError`; the sample is likewise discarded and the loop
continues, via the catch-all of the main loop). -/
def pyFloat : JVal → Option ℚ
  | .num q => some q
  | .str s => parseFloat s
  | .bool b => some (if b then 1 else 0)
  | .null => none

/-- An inbound record as seen by `process_telemetry`: each of the three
keys the code reads is present with a value or absent.  Extra keys are
never read, hence not modelled. -/
structure RawRecord where
  altitude : Option JVal
  airspeed : Option JVal
  battery_voltage : Option JVal
deriving DecidableEq, Repr

/-- Model of `float(data.get(key, 0.0))`: the default 0.0 for an absent
key, otherwise the `float()` coercion of the present value. -/
def getField : Option JVal → Option ℚ
  | none => some 0
  | some v => pyFloat v

/-- The normalized sample held in `self.last_telemetry`: three floats
plus a timestamp that is `None` at startup and an isoformat string
(modelled as the tick) afterwards. -/
structure Telemetry where
  altitude : ℚ
  airspeed : ℚ
  battery_voltage : ℚ
  timestamp : Option Nat
deriving DecidableEq, Repr

/-- The alert payload built in `check_failsafe` (lines 143-151). -/
structure AlertMsg where
  type : String
  priority : String
  message : String
  threshold : ℚ
  current_voltage : ℚ
  timestamp : Nat
  action_required : String
deriving DecidableEq, Repr

/-- Rendering of a timestamp tick as the isoformat string. -/
def isoStr (n : Nat) : String := toString n

/-- The alert message for voltage `v` at tick `now`, following the dict
literal of lines 143-151. -/
def mkAlertMsg (v : ℚ) (now : Nat) : AlertMsg :=
  { type := "CRITICAL_ALERT"
    priority := "HIGH"
    message := "Battery voltage critical: " ++ toString v ++ "V"
    threshold := BATTERY_CRITICAL_VOLTAGE
    current_voltage := v
    timestamp := now
    action_required := "IMMEDIATE_LANDING_RECOMMENDED" }

/-- A payload handed to `mqtt_client.publish`: either the
`last_telemetry` dict or an alert dict. -/
inductive Payload where
  | telemetry (t : Telemetry)
  | alert (a : AlertMsg)
deriving DecidableEq, Repr

/-- A JSON output value, for stating the serialized field sets. -/
inductive JOut where
  | num (q : ℚ)
  | str (s : String)
  | null
deriving DecidableEq, Repr

/-- JSON serialization of a payload as an ordered key/value list,
following the dict literals at lines 123-128 and 143-151. -/
def payloadJson : Payload → List (String × JOut)
  | .telemetry t =>
      [("altitude", .num t.altitude), ("airspeed", .num t.airspeed),
       ("battery_voltage", .num t.battery_voltage),
       ("timestamp", match t.timestamp with
                     | none => .null
                     | some n => .str (isoStr n))]
  | .alert a =>
      [("type", .str a.type), ("priority", .str a.priority),
       ("message", .str a.message), ("threshold", .num a.threshold),
       ("current_voltage", .num a.current_voltage),
       ("timestamp", .str (isoStr a.timestamp)),
       ("action_required", .str a.action_required)]

/-- One observable effect of a processing step, in emission order:
a replacement of `self.last_telemetry`, a `logger.error` from the
except clause of the normalizer, the `logger.critical` of
`check_failsafe` (carrying the voltage and the threshold it
interpolates), the `logger.info` recovery message, an
`mqtt_client.publish(topic, payload, qos, retain)`, or the WebSocket
broadcast of the sample to the subscriber set. -/
inductive Event where
  | snapshotReplaced (t : Telemetry)
  | logError (msg : String)
  | logCritical (v threshold : ℚ)
  | logRecovered
  | publish (topic : String) (p : Payload) (qos : Nat) (retain : Bool)
  | wsBroadcast (t : Telemetry)
deriving DecidableEq, Repr

/-- The mutable daemon state touched by the per-sample pipeline:
`self.last_telemetry`, `self.alert_sent`, and whether
`self.mqtt_client and self.mqtt_client.is_connected()` holds. -/
structure DaemonState where
  last_telemetry : Telemetry
  alert_sent : Bool
  mqtt_connected : Bool
deriving DecidableEq, Repr

/-- Initial state built by `MAVLinkDaemon.__init__` (lines 44-56):
an all-zero sample with `timestamp = None`, `alert_sent = False`, and
no MQTT client yet. -/
def initState : DaemonState :=
  { last_telemetry :=
      { altitude := 0, airspeed := 0, battery_voltage := 0, timestamp := none }
    alert_sent := false
    mqtt_connected := false }

/-- Embedding of `check_failsafe` (lines 140-158).  When the voltage is
below the critical threshold it logs, publishes the alert if the broker
is connected, and sets `alert_sent`; otherwise it clears `alert_sent`
(logging recovery) only once the voltage reaches threshold + 0.5. -/
def check_failsafe (s : DaemonState) (v : ℚ) (now : Nat) :
    DaemonState × List Event :=
  if v < BATTERY_CRITICAL_VOLTAGE then
    let evs :=
      [Event.logCritical v BATTERY_CRITICAL_VOLTAGE] ++
      (if s.mqtt_connected then
        [Event.publish MQTT_TOPIC_ALERT (.alert (mkAlertMsg v now)) 2 true]
       else [])
    ({ s with alert_sent := true }, evs)
  else
    if s.alert_sent = true ∧ v ≥ BATTERY_CRITICAL_VOLTAGE + 0.5 then
      ({ s with alert_sent := false }, [Event.logRecovered])
    else
      (s, [])

/-- Embedding of `publish_telemetry` (lines 160-162): publish the
current snapshot at QoS 1, not retained, only when connected; when not
connected nothing happens and nothing is logged. -/
def publish_telemetry (s : DaemonState) : List Event :=
  if s.mqtt_connected then
    [Event.publish MQTT_TOPIC_TELEMETRY (.telemetry s.last_telemetry) 1 false]
  else []

/-- The pure normalization part of `process_telemetry` (lines 119-128):
the three `float()` coercions with the 0.0 defaults, building the new
`last_telemetry` dict with the current timestamp; `none` when any
coercion raises. -/
def normalize (d : RawRecord) (now : Nat) : Option Telemetry :=
  match getField d.altitude, getField d.airspeed, getField d.battery_voltage with
  | some alt, some spd, some v =>
      some { altitude := alt, airspeed := spd, battery_voltage := v,
             timestamp := some now }
  | _, _, _ => none

/-- Embedding of `process_telemetry` (lines 117-138).  The three
`float()` coercions run before any state change; if any fails the
sample is discarded with an error log and the state is untouched.
Otherwise the snapshot is replaced, the sample is published, the
failsafe runs, and the sample is broadcast over WebSocket, in that
order. -/
def process_telemetry (s : DaemonState) (d : RawRecord) (now : Nat) :
    DaemonState × List Event :=
  match normalize d now with
  | some t =>
      let s1 := { s with last_telemetry := t }
      let evTel := publish_telemetry s1
      let fs := check_failsafe s1 t.battery_voltage now
      (fs.1, [Event.snapshotReplaced t] ++ evTel ++ fs.2 ++ [Event.wsBroadcast t])
  | none =>
      (s, [Event.logError "Error processing telemetry"])

/-- Process a list of (record, tick) pairs in arrival order,
concatenating the event traces. -/
def runDaemon (s : DaemonState) : List (RawRecord × Nat) → DaemonState × List Event
  | [] => (s, [])
  | (d, n) :: rest =>
      let step := process_telemetry s d n
      let tail := runDaemon step.1 rest
      (tail.1, step.2 ++ tail.2)

/-- The `alert_sent` latch value after each successive sample (the
alarm-state sequence: `true` is Critical, `false` is Normal). -/
def statesAfter (s : DaemonState) : List (RawRecord × Nat) → List Bool
  | [] => []
  | (d, n) :: rest =>
      let step := process_telemetry s d n
      step.1.alert_sent :: statesAfter step.1 rest

/-- A record carrying only a battery voltage, as the failsafe test
scenarios inject. -/
def voltageRecord (v : ℚ) : RawRecord :=
  { altitude := none, airspeed := none, battery_voltage := some (.num v) }

/-- The publishes to a given topic occurring in a trace, with payload,
qos and retain flag, in order. -/
def pubsTo (tp : String) (evs : List Event) : List (Payload × Nat × Bool) :=
  evs.filterMap fun e =>
    match e with
    | .publish t p q r => if t = tp then some (p, q, r) else none
    | _ => none

/-- The alert publishes of a trace. -/
def alertPubs (evs : List Event) : List (Payload × Nat × Bool) :=
  pubsTo MQTT_TOPIC_ALERT evs

/-- Whether an event is a publish to the broker (any topic). -/
def isPubEv : Event → Bool
  | .publish _ _ _ _ => true
  | _ => false

/-- All publish events of a trace, any topic. -/
def allPubs (evs : List Event) : List Event :=
  evs.filter isPubEv

/-- Whether an event is the error log of the normalizer. -/
def isErrLog : Event → Bool
  | .logError _ => true
  | _ => false

/-- The error-log events of a trace. -/
def errLogs (evs : List Event) : List Event :=
  evs.filter isErrLog

/-- Whether an event is any log line (error, critical, recovery). -/
def isLogEv : Event → Bool
  | .logError _ => true
  | .logCritical _ _ => true
  | .logRecovered => true
  | _ => false

/-- All log events of a trace. -/
def allLogs (evs : List Event) : List Event :=
  evs.filter isLogEv

/-- The current_voltage fields of the alert payloads in a trace. -/
def alertVoltages (evs : List Event) : List ℚ :=
  (alertPubs evs).filterMap fun pr =>
    match pr.1 with
    | .alert a => some a.current_voltage
    | _ => none

/-- Whether an event belongs to the failsafe evaluation: its critical
log, its alert publish, or its recovery log. -/
def isFailsafeEv : Event → Bool
  | .logCritical _ _ => true
  | .logRecovered => true
  | .publish tp _ _ _ => tp == MQTT_TOPIC_ALERT
  | _ => false

/-- Whether an event pushes the sample to a consumer: the broker
telemetry publish or the WebSocket broadcast. -/
def isSamplePush : Event → Bool
  | .publish tp _ _ _ => tp == MQTT_TOPIC_TELEMETRY
  | .wsBroadcast _ => true
  | _ => false

/-- Whether an event is the broker telemetry publish. -/
def isTelemetryPub : Event → Bool
  | .publish tp _ _ _ => tp == MQTT_TOPIC_TELEMETRY
  | _ => false

/-- The ordering C7 claims: every failsafe-evaluation event precedes
every push of the sample, i.e. from the first sample push onward no
failsafe event occurs. -/
def failsafeBeforePush (evs : List Event) : Bool :=
  !(evs.dropWhile (fun e => !(isSamplePush e))).any isFailsafeEv

/-- The ordering the code actually has: the broker telemetry publish
precedes the failsafe evaluation, i.e. from the first failsafe event
onward no broker telemetry publish occurs. -/
def telemetryPubBeforeFailsafe (evs : List Event) : Bool :=
  !(evs.dropWhile (fun e => !(isFailsafeEv e))).any isTelemetryPub

/-- The initial state once `setup_mqtt` has succeeded: the connected
variant of `initState`. -/
def connectedInit : DaemonState := { initState with mqtt_connected := true }

/-- A connected state whose alarm latch is set (the Critical state). -/
def critState : DaemonState := { connectedInit with alert_sent := true }

/-- The record of the C4 scenario: a present battery_voltage field that
cannot be coerced to a float. -/
def notANumberRecord : RawRecord :=
  { altitude := none, airspeed := none,
    battery_voltage := some (.str "not-a-number") }

/-- The five-sample end-to-end scenario of the spec, with consecutive
ticks. -/
def fiveSamples : List (RawRecord × Nat) :=
  [(voltageRecord 25.2, 0), (voltageRecord 22.0, 1), (voltageRecord 20.5, 2),
   (voltageRecord 20.0, 3), (voltageRecord 21.6, 4)]

/-- The sample produced from `voltageRecord 20` at tick 0. -/
def tSample20 : Telemetry :=
  { altitude := 0, airspeed := 0, battery_voltage := 20, timestamp := some 0 }

/-- Normalization fails exactly when a present field fails the
`float()` coercion (an absent field never fails: `getField none` is
`some 0`). -/
theorem normalize_none_iff (d : RawRecord) (now : Nat) :
    normalize d now = none ↔
      getField d.altitude = none ∨ getField d.airspeed = none ∨
        getField d.battery_voltage = none := by
  unfold normalize
  rcases hA : getField d.altitude with _ | a <;>
    rcases hB : getField d.airspeed with _ | b <;>
      rcases hC : getField d.battery_voltage with _ | c <;> simp

/-- On an accepted sample the step state is the failsafe result over
the replaced snapshot. -/
theorem process_telemetry_state (s : DaemonState) (d : RawRecord) (now : Nat)
    (t : Telemetry) (hn : normalize d now = some t) :
    (process_telemetry s d now).1 =
      (check_failsafe { s with last_telemetry := t } t.battery_voltage now).1 := by
  simp [process_telemetry, hn]

/-- On an accepted sample the trace is: snapshot replacement, then the
telemetry publish attempt, then the failsafe events, then the
WebSocket broadcast. -/
theorem process_telemetry_trace (s : DaemonState) (d : RawRecord) (now : Nat)
    (t : Telemetry) (hn : normalize d now = some t) :
    (process_telemetry s d now).2 =
      [Event.snapshotReplaced t] ++
        publish_telemetry { s with last_telemetry := t } ++
        (check_failsafe { s with last_telemetry := t } t.battery_voltage now).2 ++
        [Event.wsBroadcast t] := by
  simp [process_telemetry, hn]

/-- The two broker topics differ. -/
theorem topics_distinct : MQTT_TOPIC_ALERT ≠ MQTT_TOPIC_TELEMETRY := by decide

/-- The critical threshold constant equals 21. -/
theorem battery_threshold_eq : BATTERY_CRITICAL_VOLTAGE = 21 := by decide

/-- C10: at startup, before any sample has been accepted, the snapshot
is the fabricated all-zero sample with a `None` timestamp and the alarm
latch is `False`. -/
theorem c10_initial_state :
    initState.last_telemetry =
      { altitude := 0, airspeed := 0, battery_voltage := 0, timestamp := none } ∧
    initState.alert_sent = false :=
  ⟨rfl, rfl⟩

/-- C1: the claim fails on the code: `check_failsafe` publishes an
alert on every sample below the threshold, not only on the transition
out of Normal.  Two consecutive 20.0 V samples from the initial Normal
state with the broker connected publish two alerts, the second while
the alarm state was already Critical (so no transition occurred), and
both end in state Critical. -/
theorem c1_alert_published_every_low_sample :
    (alertPubs (runDaemon connectedInit
        [(voltageRecord 20, 0), (voltageRecord 20, 1)]).2).length = 2 ∧
    statesAfter connectedInit [(voltageRecord 20, 0), (voltageRecord 20, 1)] =
      [true, true] := by
  decide

/-- C2: on the five-sample scenario the alarm-state sequence is as
claimed (Normal, Normal, Critical, Critical, Normal), but the code
publishes two alerts, with current_voltage 20.5 and 20.0, not exactly
one. -/
theorem c2_scenario_two_alerts :
    statesAfter connectedInit fiveSamples = [false, false, true, true, false] ∧
    alertVoltages (runDaemon connectedInit fiveSamples).2 = [20.5, 20.0] ∧
    (alertPubs (runDaemon connectedInit fiveSamples).2).length = 2 := by
  decide

/-- C3: recovery requires the hysteresis margin: while the alarm state
is Critical, any voltage below threshold + 0.5 (so in particular
exactly 21.0, and the whole dead-band [21.0, 21.5)) leaves the state
Critical, while any voltage at or above 21.5 returns the state to
Normal and publishes no alert. -/
theorem c3_recovery_needs_margin (s : DaemonState) (v : ℚ) (now : Nat)
    (hcrit : s.alert_sent = true) :
    (v < BATTERY_CRITICAL_VOLTAGE + 0.5 →
      (check_failsafe s v now).1.alert_sent = true) ∧
    (BATTERY_CRITICAL_VOLTAGE + 0.5 ≤ v →
      (check_failsafe s v now).1.alert_sent = false ∧
      alertPubs (check_failsafe s v now).2 = []) := by
  have hlt : BATTERY_CRITICAL_VOLTAGE < BATTERY_CRITICAL_VOLTAGE + 0.5 :=
    lt_add_of_pos_right _ (by norm_num)
  unfold check_failsafe
  rcases lt_or_ge v BATTERY_CRITICAL_VOLTAGE with h1 | h1
  · rw [if_pos h1]
    exact ⟨fun _ => rfl,
      fun h => absurd h1 (not_lt.mpr (le_of_lt (lt_of_lt_of_le hlt h)))⟩
  · rw [if_neg (not_lt.mpr h1)]
    rcases le_or_lt (BATTERY_CRITICAL_VOLTAGE + 0.5) v with h2 | h2
    · rw [if_pos ⟨hcrit, h2⟩]
      exact ⟨fun h => absurd h2 (not_le.mpr h), fun _ => ⟨rfl, rfl⟩⟩
    · rw [if_neg (fun hco => absurd hco.2 (not_le.mpr h2))]
      exact ⟨fun _ => hcrit, fun h => absurd h2 (not_lt.mpr h)⟩

/-- Witness for c3_recovery_needs_margin at the two boundary voltages
the claim names: 21.0 keeps the Critical state, 21.5 clears it without
an alert. -/
theorem c3_witness :
    (((21 : ℚ) < BATTERY_CRITICAL_VOLTAGE + 0.5 →
        (check_failsafe critState 21 0).1.alert_sent = true) ∧
      (BATTERY_CRITICAL_VOLTAGE + 0.5 ≤ (21 : ℚ) →
        (check_failsafe critState 21 0).1.alert_sent = false ∧
        alertPubs (check_failsafe critState 21 0).2 = [])) ∧
    (((21.5 : ℚ) < BATTERY_CRITICAL_VOLTAGE + 0.5 →
        (check_failsafe critState 21.5 0).1.alert_sent = true) ∧
      (BATTERY_CRITICAL_VOLTAGE + 0.5 ≤ (21.5 : ℚ) →
        (check_failsafe critState 21.5 0).1.alert_sent = false ∧
        alertPubs (check_failsafe critState 21.5 0).2 = [])) :=
  ⟨c3_recovery_needs_margin critState 21 0 rfl,
   c3_recovery_needs_margin critState 21.5 0 rfl⟩

/-- C4: a record in which some present field fails the float coercion
(e.g. battery_voltage = "not-a-number", which indeed fails) is
rejected as malformed: the daemon state, in particular last_telemetry,
is unchanged, and the only effect is the error log, after which
processing goes on. -/
theorem c4_malformed_rejected (s : DaemonState) (d : RawRecord) (now : Nat)
    (h : getField d.altitude = none ∨ getField d.airspeed = none ∨
         getField d.battery_voltage = none) :
    (process_telemetry s d now).1 = s ∧
    (process_telemetry s d now).1.last_telemetry = s.last_telemetry ∧
    (process_telemetry s d now).2 = [Event.logError "Error processing telemetry"] ∧
    pyFloat (.str "not-a-number") = none := by
  have hn : normalize d now = none := (normalize_none_iff d now).2 h
  refine ⟨?_, ?_, ?_, by decide⟩ <;> simp [process_telemetry, hn]

/-- Witness for c4_malformed_rejected at the record of the claim. -/
theorem c4_witness :
    (process_telemetry connectedInit notANumberRecord 0).1 = connectedInit ∧
    (process_telemetry connectedInit notANumberRecord 0).1.last_telemetry =
      connectedInit.last_telemetry ∧
    (process_telemetry connectedInit notANumberRecord 0).2 =
      [Event.logError "Error processing telemetry"] ∧
    pyFloat (.str "not-a-number") = none :=
  c4_malformed_rejected connectedInit notANumberRecord 0
    (Or.inr (Or.inr (by decide)))

/-- C5: normalizing the empty record succeeds with no error log and
yields the all-zero sample stamped with the current tick; an absent
field always defaults to 0.0 under the coercion. -/
theorem c5_empty_record_defaults (s : DaemonState) (now : Nat) :
    (process_telemetry s
        { altitude := none, airspeed := none, battery_voltage := none }
        now).1.last_telemetry =
      { altitude := 0, airspeed := 0, battery_voltage := 0,
        timestamp := some now } ∧
    errLogs (process_telemetry s
        { altitude := none, airspeed := none, battery_voltage := none }
        now).2 = [] ∧
    getField (none : Option JVal) = some 0 := by
  have hn : normalize
      { altitude := none, airspeed := none, battery_voltage := none } now =
      some { altitude := 0, airspeed := 0, battery_voltage := 0,
             timestamp := some now } := rfl
  have h0 : (0 : ℚ) < BATTERY_CRITICAL_VOLTAGE := by
    norm_num [BATTERY_CRITICAL_VOLTAGE]
  refine ⟨?_, ?_, rfl⟩
  · rw [process_telemetry_state _ _ _ _ hn]
    simp [check_failsafe, h0]
  · rw [process_telemetry_trace _ _ _ _ hn]
    rcases hm : s.mqtt_connected <;>
      simp [errLogs, publish_telemetry, check_failsafe, hm, h0, isErrLog]

/-- C6: when the broker is connected, an accepted sample is published
exactly once to mavlink/telemetry at QoS 1 not retained, with the JSON
fields altitude, airspeed, battery_voltage, timestamp; and every alert
published in the step goes to mavlink/alert at QoS 2 retained, with
type CRITICAL_ALERT, priority HIGH, threshold 21, current_voltage equal
to the sample voltage, action_required IMMEDIATE_LANDING_RECOMMENDED,
and the seven claimed JSON fields. -/
theorem c6_broker_contract (s : DaemonState) (d : RawRecord) (now : Nat)
    (t : Telemetry) (hn : normalize d now = some t)
    (hc : s.mqtt_connected = true) :
    pubsTo MQTT_TOPIC_TELEMETRY (process_telemetry s d now).2 =
      [(Payload.telemetry t, 1, false)] ∧
    (payloadJson (Payload.telemetry t)).map Prod.fst =
      ["altitude", "airspeed", "battery_voltage", "timestamp"] ∧
    (∀ pr ∈ alertPubs (process_telemetry s d now).2,
      pr = (Payload.alert (mkAlertMsg t.battery_voltage now), 2, true)) ∧
    (mkAlertMsg t.battery_voltage now).type = "CRITICAL_ALERT" ∧
    (mkAlertMsg t.battery_voltage now).priority = "HIGH" ∧
    (mkAlertMsg t.battery_voltage now).threshold = 21 ∧
    (mkAlertMsg t.battery_voltage now).current_voltage = t.battery_voltage ∧
    (mkAlertMsg t.battery_voltage now).action_required =
      "IMMEDIATE_LANDING_RECOMMENDED" ∧
    (payloadJson (Payload.alert (mkAlertMsg t.battery_voltage now))).map Prod.fst =
      ["type", "priority", "message", "threshold", "current_voltage",
       "timestamp", "action_required"] := by
  have htr := process_telemetry_trace s d now t hn
  refine ⟨?_, rfl, ?_, rfl, rfl, battery_threshold_eq, rfl, rfl, rfl⟩
  · rw [htr]
    by_cases hv : t.battery_voltage < BATTERY_CRITICAL_VOLTAGE <;>
      by_cases hl : s.alert_sent = true ∧
          t.battery_voltage ≥ BATTERY_CRITICAL_VOLTAGE + 0.5 <;>
      simp [pubsTo, publish_telemetry, check_failsafe, hc, hv, hl,
        MQTT_TOPIC_TELEMETRY, MQTT_TOPIC_ALERT]
  · rw [htr]
    by_cases hv : t.battery_voltage < BATTERY_CRITICAL_VOLTAGE <;>
      by_cases hl : s.alert_sent = true ∧
          t.battery_voltage ≥ BATTERY_CRITICAL_VOLTAGE + 0.5 <;>
      simp [alertPubs, pubsTo, publish_telemetry, check_failsafe, hc, hv, hl,
        MQTT_TOPIC_TELEMETRY, MQTT_TOPIC_ALERT]

/-- Witness for c6_broker_contract: a connected daemon accepting a
20 V sample, which makes the alert clause non-vacuous. -/
theorem c6_witness :
    pubsTo MQTT_TOPIC_TELEMETRY
        (process_telemetry connectedInit (voltageRecord 20) 0).2 =
      [(Payload.telemetry tSample20, 1, false)] ∧
    (payloadJson (Payload.telemetry tSample20)).map Prod.fst =
      ["altitude", "airspeed", "battery_voltage", "timestamp"] ∧
    (∀ pr ∈ alertPubs (process_telemetry connectedInit (voltageRecord 20) 0).2,
      pr = (Payload.alert (mkAlertMsg tSample20.battery_voltage 0), 2, true)) ∧
    (mkAlertMsg tSample20.battery_voltage 0).type = "CRITICAL_ALERT" ∧
    (mkAlertMsg tSample20.battery_voltage 0).priority = "HIGH" ∧
    (mkAlertMsg tSample20.battery_voltage 0).threshold = 21 ∧
    (mkAlertMsg tSample20.battery_voltage 0).current_voltage =
      tSample20.battery_voltage ∧
    (mkAlertMsg tSample20.battery_voltage 0).action_required =
      "IMMEDIATE_LANDING_RECOMMENDED" ∧
    (payloadJson (Payload.alert
        (mkAlertMsg tSample20.battery_voltage 0))).map Prod.fst =
      ["type", "priority", "message", "threshold", "current_voltage",
       "timestamp", "action_required"] :=
  c6_broker_contract connectedInit (voltageRecord 20) 0 tSample20 (by decide) rfl

/-- C7 counterexample: on a connected daemon accepting a 20 V sample
the broker telemetry publish (a push of the sample) happens before the
failsafe evaluation, so the claimed order (failsafe strictly before any
push of the sample) is false; the full trace is shown. -/
theorem c7_counterexample :
    failsafeBeforePush
        (process_telemetry connectedInit (voltageRecord 20) 0).2 = false ∧
    (process_telemetry connectedInit (voltageRecord 20) 0).2 =
      [Event.snapshotReplaced tSample20,
       Event.publish MQTT_TOPIC_TELEMETRY (.telemetry tSample20) 1 false,
       Event.logCritical 20 BATTERY_CRITICAL_VOLTAGE,
       Event.publish MQTT_TOPIC_ALERT (.alert (mkAlertMsg 20 0)) 2 true,
       Event.wsBroadcast tSample20] := by
  decide

/-- C7 amended: for every accepted sample the snapshot replacement
comes first, the broker telemetry publish precedes the failsafe
evaluation (which emits any alert), and the WebSocket broadcast to the
subscribers comes last. -/
theorem c7_amended_order (s : DaemonState) (d : RawRecord) (now : Nat)
    (t : Telemetry) (hn : normalize d now = some t) :
    (process_telemetry s d now).2.head? = some (Event.snapshotReplaced t) ∧
    telemetryPubBeforeFailsafe (process_telemetry s d now).2 = true ∧
    (process_telemetry s d now).2.getLast? = some (Event.wsBroadcast t) := by
  rw [process_telemetry_trace s d now t hn]
  refine ⟨rfl, ?_, List.getLast?_concat _⟩
  by_cases hv : t.battery_voltage < BATTERY_CRITICAL_VOLTAGE <;>
    by_cases hl : s.alert_sent = true ∧
        t.battery_voltage ≥ BATTERY_CRITICAL_VOLTAGE + 0.5 <;>
    rcases hm : s.mqtt_connected <;>
    simp [telemetryPubBeforeFailsafe, publish_telemetry, check_failsafe,
      hv, hl, hm, isFailsafeEv, isTelemetryPub,
      MQTT_TOPIC_TELEMETRY, MQTT_TOPIC_ALERT]

/-- Witness for c7_amended_order on a connected daemon accepting a
20 V sample. -/
theorem c7_amended_witness :
    (process_telemetry connectedInit (voltageRecord 20) 0).2.head? =
      some (Event.snapshotReplaced tSample20) ∧
    telemetryPubBeforeFailsafe
      (process_telemetry connectedInit (voltageRecord 20) 0).2 = true ∧
    (process_telemetry connectedInit (voltageRecord 20) 0).2.getLast? =
      some (Event.wsBroadcast tSample20) :=
  c7_amended_order connectedInit (voltageRecord 20) 0 tSample20 (by decide)

/-- C8 counterexample: with the broker client absent (the initial
state), an accepted 25 V sample is skipped by the publish path with no
publish AND no log at all, so the claim that every skipped delivery is
logged with diagnostic context is false. -/
theorem c8_counterexample :
    ¬ (allPubs (process_telemetry initState (voltageRecord 25) 0).2 = [] →
       allLogs (process_telemetry initState (voltageRecord 25) 0).2 ≠ []) := by
  decide

/-- C8 amended: when the broker client is absent or disconnected
nothing is published; the skipped telemetry publish is silent (no log),
while a skipped alert is still preceded by the critical log carrying
the voltage and the threshold; processing continues: the snapshot is
still replaced and the subscriber broadcast still happens. -/
theorem c8_amended_silent_skip (s : DaemonState) (d : RawRecord) (now : Nat)
    (t : Telemetry) (hn : normalize d now = some t)
    (hdis : s.mqtt_connected = false) :
    allPubs (process_telemetry s d now).2 = [] ∧
    errLogs (process_telemetry s d now).2 = [] ∧
    (t.battery_voltage < BATTERY_CRITICAL_VOLTAGE →
      Event.logCritical t.battery_voltage BATTERY_CRITICAL_VOLTAGE ∈
        (process_telemetry s d now).2) ∧
    (process_telemetry s d now).1.last_telemetry = t ∧
    Event.wsBroadcast t ∈ (process_telemetry s d now).2 := by
  have htr := process_telemetry_trace s d now t hn
  have hst := process_telemetry_state s d now t hn
  refine ⟨?_, ?_, fun hv => ?_, ?_, ?_⟩
  · rw [htr]
    by_cases hv : t.battery_voltage < BATTERY_CRITICAL_VOLTAGE <;>
      by_cases hl : s.alert_sent = true ∧
          t.battery_voltage ≥ BATTERY_CRITICAL_VOLTAGE + 0.5 <;>
      simp [allPubs, isPubEv, publish_telemetry, check_failsafe, hdis, hv, hl]
  · rw [htr]
    by_cases hv : t.battery_voltage < BATTERY_CRITICAL_VOLTAGE <;>
      by_cases hl : s.alert_sent = true ∧
          t.battery_voltage ≥ BATTERY_CRITICAL_VOLTAGE + 0.5 <;>
      simp [errLogs, isErrLog, publish_telemetry, check_failsafe, hdis, hv, hl]
  · rw [htr]
    simp [check_failsafe, hv, publish_telemetry, hdis]
  · rw [hst]
    by_cases hv : t.battery_voltage < BATTERY_CRITICAL_VOLTAGE <;>
      by_cases hl : s.alert_sent = true ∧
          t.battery_voltage ≥ BATTERY_CRITICAL_VOLTAGE + 0.5 <;>
      simp [check_failsafe, hv, hl]
  · rw [htr]
    simp

/-- Witness for c8_amended_silent_skip: the disconnected initial state
accepting a 20 V sample, which makes the critical-log clause
non-vacuous. -/
theorem c8_amended_witness :
    allPubs (process_telemetry initState (voltageRecord 20) 0).2 = [] ∧
    errLogs (process_telemetry initState (voltageRecord 20) 0).2 = [] ∧
    (tSample20.battery_voltage < BATTERY_CRITICAL_VOLTAGE →
      Event.logCritical tSample20.battery_voltage BATTERY_CRITICAL_VOLTAGE ∈
        (process_telemetry initState (voltageRecord 20) 0).2) ∧
    (process_telemetry initState (voltageRecord 20) 0).1.last_telemetry =
      tSample20 ∧
    Event.wsBroadcast tSample20 ∈
      (process_telemetry initState (voltageRecord 20) 0).2 :=
  c8_amended_silent_skip initState (voltageRecord 20) 0 tSample20 (by decide) rfl

/-- C9: the coercion is permissive beyond JSON numbers: the numeric
string "20.5" coerces to 20.5, booleans coerce to 1.0 and 0.0, and a
record is rejected (the step trace is exactly the error log) precisely
when some present field fails the float coercion. -/
theorem c9_permissive_coercion (s : DaemonState) (d : RawRecord) (now : Nat) :
    pyFloat (.str "20.5") = some (20.5 : ℚ) ∧
    pyFloat (.bool true) = some 1 ∧
    pyFloat (.bool false) = some 0 ∧
    ((process_telemetry s d now).2 =
        [Event.logError "Error processing telemetry"] ↔
      getField d.altitude = none ∨ getField d.airspeed = none ∨
        getField d.battery_voltage = none) := by
  refine ⟨by decide, by decide, by decide, ?_⟩
  rw [← normalize_none_iff d now]
  cases hn : normalize d now with
  | none => simp [process_telemetry, hn]
  | some t =>
      rw [process_telemetry_trace s d now t hn]
      simp

end Falx
